import Mathlib

/-!
Verification of the address-registration pipeline of the caddy-libp2p-listener
repository.  The repository holds two versions of `registerMultiaddrURI`
(one in `src/module.go`, one in `src/unnamed/part_000`); both are embedded
below.  Go strings are modelled as lists of characters (all the strings the
code inspects are ASCII, so byte indices and character indices agree), Go's
`int` as `Int` with the 64-bit range checks of `strconv.Atoi` made explicit,
and the external collaborators (the filesystem, `pem.Decode`,
`x509.ParsePKCS8PrivateKey`, `crypto.KeyPairFromStdKey`,
`multiaddr.NewMultiaddr`, `libp2p.New`, `gostream.Listen`, `dht.New`, and the
caddy app lookup) as an explicit record of oracles, so that every theorem
quantifies over their behaviour.  A Go runtime panic (the out-of-range slice
`addr[:lastColon]`) is a distinct outcome, not an error return.
-/

deriving instance DecidableEq for Except

/-- Go strings, as their character lists. -/
abbrev GoStr := List Char

/-- A Lean string literal as a Go string. -/
def gs (s : String) : GoStr := s.toList

/-- Index of the last ':' of a string, if any (`strings.LastIndex(addr, ":")`
before its -1 encoding). -/
def lastColonAux : GoStr → Option Nat
  | [] => none
  | c :: cs =>
    match lastColonAux cs with
    | some i => some (i + 1)
    | none => if c = ':' then some 0 else none

/-- `strings.LastIndex(addr, ":")`: the index of the last colon, or -1. -/
def goLastIndexColon (s : GoStr) : Int :=
  match lastColonAux s with
  | some i => (i : Int)
  | none => -1

/-- Go slice `s[:i]`: out-of-range bounds (here a negative `i`) are a runtime
panic, encoded as `none`. -/
def goSliceTo (s : GoStr) (i : Int) : Option GoStr :=
  if 0 ≤ i ∧ i ≤ (s.length : Int) then some (s.take i.toNat) else none

/-- The two failures of `strconv.Atoi`. -/
inductive AtoiErr where
  | invalid
  | outOfRange
deriving DecidableEq

/-- Decimal value of a digit character, if it is one. -/
def digitVal (c : Char) : Option Nat :=
  if '0' ≤ c ∧ c ≤ '9' then some (c.toNat - '0'.toNat) else none

/-- Value of a digit string, scanned left to right. -/
def digitsValAux : Nat → GoStr → Option Nat
  | acc, [] => some acc
  | acc, c :: cs =>
    match digitVal c with
    | some d => digitsValAux (acc * 10 + d) cs
    | none => none

/-- Value of a non-empty all-digit string; `none` on an empty string or any
non-digit character. -/
def digitsVal : GoStr → Option Nat
  | [] => none
  | s => digitsValAux 0 s

/-- `strconv.Atoi` (= `ParseInt(s, 10, 0)` on a 64-bit platform): an optional
sign followed by at least one digit, with the result required to fit a signed
64-bit integer.  Note that a leading '-' is accepted: Atoi parses signed
integers. -/
def goAtoi : GoStr → Except AtoiErr Int
  | [] => .error .invalid
  | c :: cs =>
    if c = '-' then
      match digitsVal cs with
      | none => .error .invalid
      | some v => if v ≤ 2 ^ 63 then .ok (-(v : Int)) else .error .outOfRange
    else if c = '+' then
      match digitsVal cs with
      | none => .error .invalid
      | some v => if v ≤ 2 ^ 63 - 1 then .ok (v : Int) else .error .outOfRange
    else
      match digitsVal (c :: cs) with
      | none => .error .invalid
      | some v => if v ≤ 2 ^ 63 - 1 then .ok (v : Int) else .error .outOfRange

/-- An opaque multiaddr value returned by `multiaddr.NewMultiaddr`. -/
structure Multiaddr where
  tag : Nat
deriving DecidableEq

/-- An opaque libp2p private key (`crypto.PrivKey`). -/
structure PrivKey where
  tag : Nat
deriving DecidableEq

/-- An opaque libp2p host. -/
structure Host where
  tag : Nat
deriving DecidableEq

/-- An opaque peer-routing value (`routing.PeerRouting`). -/
structure Routing where
  tag : Nat
deriving DecidableEq

/-- An opaque net.Listener as returned by `gostream.Listen`. -/
structure Listener where
  tag : Nat
deriving DecidableEq

/-- An opaque Go error value from an external collaborator. -/
structure GoError where
  code : Nat
deriving DecidableEq

/-- The standard-library key decoded by `x509.ParsePKCS8PrivateKey`: an
ed25519 key is either value-typed (`ed25519.PrivateKey`, `referenced = false`)
or reference-typed (`*ed25519.PrivateKey`, `referenced = true`); other
algorithms carry no such distinction relevant to the code. -/
inductive StdKey where
  | ed25519 (referenced : Bool) (material : Nat)
  | rsa (material : Nat)
  | ecdsa (material : Nat)
  | ecdh (material : Nat)
deriving DecidableEq

/-- A PEM block as `pem.Decode` yields it (the unparsed remainder is only
interpolated into an error message and is dropped). -/
structure PemBlock where
  blockType : GoStr
  bytes : List Nat
deriving DecidableEq

/-- The caddy libp2p `App` configuration read by the registration function. -/
structure App where
  PrivateKey : GoStr
  AdvertiseAmino : Bool
deriving DecidableEq

/-- The failure stages of the registration call, mirroring the error returns
of `registerMultiaddrURI` in source order. -/
inductive RegError where
  | notCaddyContext
  | wrongNetwork
  | malformedPort (e : AtoiErr)
  | malformedAddr (e : GoError)
  | appLookup (e : GoError)
  | fileRead (e : GoError)
  | envelopeFormat
  | unexpectedKeyType (t : GoStr)
  | keyDecode (e : GoError)
  | keyConversion (e : GoError)
  | hostConstruction (e : GoError)
  | listenFailed (e : GoError)
deriving DecidableEq

/-- Outcome of a Go computation: a value, an error return, or a runtime
panic. -/
inductive Outcome (α : Type) where
  | ok (a : α)
  | error (e : RegError)
  | panicked
deriving DecidableEq

/-- `dht.Mode` passed to `dht.New`; the code always uses `dht.ModeClient`. -/
inductive RoutingMode where
  | client
  | server
  | auto
deriving DecidableEq

/-- One `libp2p.Option` of the assembled options list.  The `routing` option
stands for `libp2p.Routing` applied to the closure that builds a DHT in the
given mode (the closure itself is `routingCallback` below). -/
inductive HostOpt where
  | listenAddrs (ma : Multiaddr)
  | defaultTransports
  | transportWebRTC
  | identity (sk : PrivKey)
  | routing (mode : RoutingMode)
deriving DecidableEq

/-- Whether an option is the routing capability. -/
def isRoutingOpt : HostOpt → Bool
  | .routing _ => true
  | _ => false

/-- The external collaborators of the registration call, as oracles. -/
structure World where
  readFile : GoStr → Except GoError (List Nat)
  pemDecode : List Nat → Option PemBlock
  parsePKCS8 : List Nat → Except GoError StdKey
  keyPairFromStdKey : StdKey → Except GoError PrivKey
  newMultiaddr : GoStr → Except GoError Multiaddr
  newHost : List HostOpt → Except GoError Host
  gostreamListen : Host → GoStr → Bool → Except GoError Listener
  appResult : Except GoError App
  dhtNew : Host → Except GoError Routing

/-- Lines 113-120 of `src/module.go` (identical to lines 41-48 of
`src/unnamed/part_000`): if the last colon is not the final character, the
text after it is fed to `strconv.Atoi`; otherwise no explicit port.  A
missing colon makes `lastColon = -1`, so the whole string is fed to Atoi. -/
def portOf (addr : GoStr) : Except AtoiErr (Option Int) :=
  if goLastIndexColon addr ≠ (addr.length : Int) - 1 then
    match goAtoi (addr.drop (goLastIndexColon addr + 1).toNat) with
    | .error e => .error e
    | .ok p => .ok (some p)
  else .ok none

/-- Lines 40-54 of `src/unnamed/part_000`: the port step, then the slice
`addr = addr[:lastColon]` (a panic when `lastColon` is -1), and the string
that this version hands to `multiaddr.NewMultiaddr` (the stripped address
itself). -/
def parseAddrPort_part0 (addr : GoStr) : Outcome (GoStr × Option Int) :=
  match portOf addr with
  | .error e => .error (.malformedPort e)
  | .ok port =>
    match goSliceTo addr (goLastIndexColon addr) with
    | none => .panicked
    | some stripped => .ok (stripped, port)

/-- Lines 112-126 of `src/module.go`: same port step and slice, but this
version hands `"/" + addr` to `multiaddr.NewMultiaddr`, so the returned
string carries the prepended slash. -/
def parseAddrPort_module (addr : GoStr) : Outcome (GoStr × Option Int) :=
  match portOf addr with
  | .error e => .error (.malformedPort e)
  | .ok port =>
    match goSliceTo addr (goLastIndexColon addr) with
    | none => .panicked
    | some stripped => .ok ('/' :: stripped, port)

/-- Lines 170-172 of `src/module.go`: a value-typed ed25519 key is replaced by
a reference to it before the libp2p conversion; every other key is left as it
is (the type assertion `stdKey.(ed25519.PrivateKey)` fails on it). -/
def ed25519Ref : StdKey → StdKey
  | .ed25519 false m => .ed25519 true m
  | k => k

/-- Whether a decoded key is the value-typed ed25519 form. -/
def isEd25519Value : StdKey → Bool
  | .ed25519 false _ => true
  | _ => false

/-- Lines 147-178 of `src/module.go` (identical in `src/unnamed/part_000`):
load the configured identity key, or none when no path is configured. -/
def loadIdentity (w : World) (path : GoStr) : Except RegError (Option PrivKey) :=
  if path = [] then .ok none
  else
    match w.readFile path with
    | .error e => .error (.fileRead e)
    | .ok contents =>
      match w.pemDecode contents with
      | none => .error .envelopeFormat
      | some block =>
        if block.blockType ≠ gs "PRIVATE KEY" then
          .error (.unexpectedKeyType block.blockType)
        else
          match w.parsePKCS8 block.bytes with
          | .error e => .error (.keyDecode e)
          | .ok stdKey =>
            match w.keyPairFromStdKey (ed25519Ref stdKey) with
            | .error e => .error (.keyConversion e)
            | .ok sk => .ok (some sk)

/-- Lines 180-189 of `src/module.go` (identical in `src/unnamed/part_000`):
the assembled `libp2p.Option` list -- the fixed base, the identity when a key
was loaded, and the client-mode routing option when `AdvertiseAmino` is
set. -/
def hostOpts (ma : Multiaddr) (sk : Option PrivKey) (advertiseAmino : Bool) :
    List HostOpt :=
  let opts : List HostOpt := [.listenAddrs ma, .defaultTransports, .transportWebRTC]
  let opts :=
    match sk with
    | some k => opts ++ [.identity k]
    | none => opts
  if advertiseAmino then opts ++ [.routing .client] else opts

/-- The closure passed to `libp2p.Routing` (lines 185-188 of `src/module.go`):
`r, err := dht.New(ctx, host, dht.Mode(dht.ModeClient)); return r, err` --
whatever `dht.New` yields is returned unchanged, so a routing-construction
error propagates with no fallback. -/
def routingCallback (dhtNew : Host → Except GoError Routing) (h : Host) :
    Except GoError Routing :=
  match dhtNew h with
  | .ok r => .ok r
  | .error e => .error e

/-- `libp2phttp.ProtocolIDForMultistreamSelect`. -/
def protocolIDForMultistreamSelect : GoStr := gs "/http/1.1"

/-- `registerMultiaddrURI` of `src/module.go` (lines 102-200).  `ctxIsCaddy`
models the `ctx.(caddy.Context)` type assertion; the second component of the
result records whether `libp2p.New` was reached (host side effects). -/
def registerMultiaddrURI_module (w : World) (ctxIsCaddy : Bool)
    (network addr : GoStr) : Outcome Listener × Bool :=
  if ctxIsCaddy = false then (.error .notCaddyContext, false)
  else if network ≠ gs "multiaddr:" then (.error .wrongNetwork, false)
  else
    match parseAddrPort_module addr with
    | .panicked => (.panicked, false)
    | .error e => (.error e, false)
    | .ok (maStr, _port) =>
      match w.newMultiaddr maStr with
      | .error e => (.error (.malformedAddr e), false)
      | .ok ma =>
        match w.appResult with
        | .error e => (.error (.appLookup e), false)
        | .ok app =>
          match loadIdentity w app.PrivateKey with
          | .error e => (.error e, false)
          | .ok sk =>
            match w.newHost (hostOpts ma sk app.AdvertiseAmino) with
            | .error e => (.error (.hostConstruction e), true)
            | .ok h =>
              match w.gostreamListen h protocolIDForMultistreamSelect true with
              | .error e => (.error (.listenFailed e), true)
              | .ok l => (.ok l, true)

/-- `registerMultiaddrURI` of `src/unnamed/part_000` (lines 30-128): the
network token is `"multiaddr"` (no colon), no slash is prepended before
`multiaddr.NewMultiaddr`, and `gostream.Listen` is called without the
`IgnoreEOF` option (the final `Bool` of the oracle). -/
def registerMultiaddrURI_part0 (w : World) (ctxIsCaddy : Bool)
    (network addr : GoStr) : Outcome Listener × Bool :=
  if ctxIsCaddy = false then (.error .notCaddyContext, false)
  else if network ≠ gs "multiaddr" then (.error .wrongNetwork, false)
  else
    match parseAddrPort_part0 addr with
    | .panicked => (.panicked, false)
    | .error e => (.error e, false)
    | .ok (maStr, _port) =>
      match w.newMultiaddr maStr with
      | .error e => (.error (.malformedAddr e), false)
      | .ok ma =>
        match w.appResult with
        | .error e => (.error (.appLookup e), false)
        | .ok app =>
          match loadIdentity w app.PrivateKey with
          | .error e => (.error e, false)
          | .ok sk =>
            match w.newHost (hostOpts ma sk app.AdvertiseAmino) with
            | .error e => (.error (.hostConstruction e), true)
            | .ok h =>
              match w.gostreamListen h protocolIDForMultistreamSelect false with
              | .error e => (.error (.listenFailed e), true)
              | .ok l => (.ok l, true)

/-- `libp2phttp.WellKnownProtocols`, the fixed discovery path. -/
def wellKnownProtocols : GoStr := gs "/.well-known/libp2p/protocols"

/-- An incoming HTTP request as far as `ServeHTTP` inspects it. -/
structure Request where
  method : GoStr
  urlPath : GoStr

/-- What `Libp2pHandler.ServeHTTP` does with a request: serve the discovery
document itself (and return nil), or return whatever the next handler
returns. -/
inductive ServeOutcome where
  | intercepted
  | fromNext (e : Option GoError)
deriving DecidableEq

/-- `Libp2pHandler.ServeHTTP` (lines 73-79 of `src/module.go`): a request
whose URL path equals the well-known discovery path is answered by the
handler's own responder; any other request goes to `next` unchanged. -/
def serveHTTP (r : Request) (next : Request → Option GoError) : ServeOutcome :=
  if r.urlPath = wellKnownProtocols then .intercepted else .fromNext (next r)

/-- A world in which every collaborator succeeds with a fixed value; the
listener tag records the `IgnoreEOF` flag (1 with it, 0 without), and no
private key is configured. -/
def okWorld : World where
  readFile := fun _ => .ok [1, 2, 3]
  pemDecode := fun _ => some ⟨gs "PRIVATE KEY", [1]⟩
  parsePKCS8 := fun _ => .ok (.ed25519 false 7)
  keyPairFromStdKey := fun _ => .ok ⟨5⟩
  newMultiaddr := fun _ => .ok ⟨0⟩
  newHost := fun _ => .ok ⟨0⟩
  gostreamListen := fun _ _ flag => .ok ⟨cond flag 1 0⟩
  appResult := .ok ⟨[], false⟩
  dhtNew := fun _ => .ok ⟨0⟩

/-- A world whose configured key file holds no PEM block. -/
def noPemWorld : World :=
  { okWorld with
    appResult := .ok ⟨gs "key.pem", false⟩
    pemDecode := fun _ => none }

/-- A world whose configured key file holds a PEM block of the wrong type. -/
def badTypeWorld : World :=
  { okWorld with
    appResult := .ok ⟨gs "key.pem", false⟩
    pemDecode := fun _ => some ⟨gs "CERTIFICATE", [2]⟩ }

/-- A world with a configured key file (a well-formed one). -/
def keyWorld : World :=
  { okWorld with appResult := .ok ⟨gs "key.pem", false⟩ }

/-- A world with routing advertised and a failing host constructor. -/
def aminoFailWorld : World :=
  { okWorld with
    appResult := .ok ⟨[], true⟩
    newHost := fun _ => .error ⟨9⟩ }

/-! ## Helper lemmas about the parsing primitives -/

/-- The last-colon index is always inside the string. -/
lemma lastColonAux_lt_length (s : GoStr) (i : Nat) (h : lastColonAux s = some i) :
    i < s.length := by
  induction s generalizing i with
  | nil => simp [lastColonAux] at h
  | cons c cs ih =>
    unfold lastColonAux at h
    cases hcs : lastColonAux cs with
    | some j =>
      rw [hcs] at h
      simp only [Option.some.injEq] at h
      have := ih j hcs
      simp only [List.length_cons]
      omega
    | none =>
      rw [hcs] at h
      by_cases hc : c = ':'
      · rw [if_pos hc] at h
        simp only [Option.some.injEq] at h
        simp only [List.length_cons]
        omega
      · rw [if_neg hc] at h
        cases h

/-- A string containing a colon has a last-colon index. -/
lemma lastColonAux_isSome_of_mem (s : GoStr) (h : ':' ∈ s) :
    ∃ i, lastColonAux s = some i := by
  induction s with
  | nil => simp at h
  | cons c cs ih =>
    unfold lastColonAux
    cases hcs : lastColonAux cs with
    | some j => exact ⟨j + 1, rfl⟩
    | none =>
      have hc : c = ':' := by
        rcases List.mem_cons.mp h with h1 | h2
        · exact h1.symm
        · obtain ⟨j, hj⟩ := ih h2
          rw [hj] at hcs
          cases hcs
      rw [if_pos hc]
      exact ⟨0, rfl⟩

/-- A string ending in a colon has its last colon at the final index. -/
lemma lastColonAux_append (t : GoStr) :
    lastColonAux (t ++ [':']) = some t.length := by
  induction t with
  | nil => rfl
  | cons c t ih =>
    show lastColonAux (c :: (t ++ [':'])) = _
    unfold lastColonAux
    rw [ih]
    simp

/-- The port step of a string ending in a colon: no explicit port. -/
lemma portOf_trailing_colon (t : GoStr) : portOf (t ++ [':']) = .ok none := by
  unfold portOf goLastIndexColon
  rw [lastColonAux_append, if_neg]
  simp only [List.length_append, List.length_cons, List.length_nil]
  push_cast
  omega

/-- The slice step of a string ending in a colon keeps everything before the
trailing colon. -/
lemma goSliceTo_trailing (t : GoStr) :
    goSliceTo (t ++ [':']) (goLastIndexColon (t ++ [':'])) = some t := by
  unfold goSliceTo goLastIndexColon
  rw [lastColonAux_append, if_pos]
  · simp
  · constructor
    · exact Int.natCast_nonneg t.length
    · simp only [List.length_append, List.length_cons, List.length_nil]
      push_cast
      omega

/-- The module version of the parse differs from the part_000 version only in
the slash it prepends to the successfully stripped address. -/
lemma parse_module_via_part0 (addr : GoStr) :
    parseAddrPort_module addr =
      (match parseAddrPort_part0 addr with
        | .ok (s, p) => .ok ('/' :: s, p)
        | .error e => .error e
        | .panicked => .panicked) := by
  unfold parseAddrPort_module parseAddrPort_part0
  cases portOf addr with
  | error e => rfl
  | ok port =>
    cases goSliceTo addr (goLastIndexColon addr) with
    | none => rfl
    | some s => rfl

/-! ## The claims -/

/-- Claim C1, counterexample: on the raw address string
`"/ip4/0.0.0.0/tcp/4001:4001"` the module.go version strips the port and then
hands `"//ip4/0.0.0.0/tcp/4001"` (with the slash it prepends) to
`multiaddr.NewMultiaddr` -- not the claimed structured address string
`"/ip4/0.0.0.0/tcp/4001"`. -/
theorem c1_module_prepends_slash_cex :
    parseAddrPort_module (gs "/ip4/0.0.0.0/tcp/4001:4001")
      = .ok (gs "//ip4/0.0.0.0/tcp/4001", some 4001)
    ∧ gs "//ip4/0.0.0.0/tcp/4001" ≠ gs "/ip4/0.0.0.0/tcp/4001" := by
  decide

/-- Claim C1, amended: the part_000 version parses the two quoted raw strings
into the structured address string `/ip4/0.0.0.0/tcp/4001` with port 4001 and
no port respectively, without failing; the module.go version does the same
only for the raw strings without the leading slash (it prepends one itself).
The last conjunct shows the full part_000 registration succeeding on the
quoted raw string in an all-successful world. -/
theorem c1_scenarios_amended :
    parseAddrPort_part0 (gs "/ip4/0.0.0.0/tcp/4001:4001")
      = .ok (gs "/ip4/0.0.0.0/tcp/4001", some 4001)
    ∧ parseAddrPort_part0 (gs "/ip4/0.0.0.0/tcp/4001:")
      = .ok (gs "/ip4/0.0.0.0/tcp/4001", none)
    ∧ parseAddrPort_module (gs "ip4/0.0.0.0/tcp/4001:4001")
      = .ok (gs "/ip4/0.0.0.0/tcp/4001", some 4001)
    ∧ parseAddrPort_module (gs "ip4/0.0.0.0/tcp/4001:")
      = .ok (gs "/ip4/0.0.0.0/tcp/4001", none)
    ∧ (registerMultiaddrURI_part0 okWorld true (gs "multiaddr")
        (gs "/ip4/0.0.0.0/tcp/4001:4001")).1 = .ok ⟨0⟩ := by
  decide

/-- Claim C5: a raw address ending in a colon with nothing after it parses
with no explicit port, and the address segment handed on is everything before
that trailing colon (the module.go version additionally prepends its slash to
it). -/
theorem c5_trailing_colon_no_port (t : GoStr) :
    parseAddrPort_part0 (t ++ [':']) = .ok (t, none)
    ∧ parseAddrPort_module (t ++ [':']) = .ok ('/' :: t, none) := by
  have h1 : parseAddrPort_part0 (t ++ [':']) = .ok (t, none) := by
    unfold parseAddrPort_part0
    rw [portOf_trailing_colon, goSliceTo_trailing]
  refine ⟨h1, ?_⟩
  rw [parse_module_via_part0, h1]

/-- Claim C6: a request whose URL path equals the fixed discovery path is
answered by the handler itself whatever its method and whatever the next
handler would do (the outcome does not depend on `next`); a request to any
other path is forwarded unchanged and the next handler's result is
returned. -/
theorem c6_wellknown_intercepts (m p : GoStr)
    (next nextB : Request → Option GoError) :
    serveHTTP ⟨m, wellKnownProtocols⟩ next = .intercepted
    ∧ serveHTTP ⟨m, p⟩ next
        = (if p = wellKnownProtocols then .intercepted
           else .fromNext (next ⟨m, p⟩))
    ∧ serveHTTP ⟨m, wellKnownProtocols⟩ next
        = serveHTTP ⟨m, wellKnownProtocols⟩ nextB := by
  refine ⟨?_, rfl, ?_⟩ <;> simp [serveHTTP]

/-- Claim C9, counterexample: the address-parsing portion is not panic-free.
On the empty string (and on any colon-free string that `Atoi` accepts, such
as `"42"`) the Go slice `addr[:lastColon]` runs with `lastColon = -1` and
panics; the full registration call of module.go hits the same panic. -/
theorem c9_empty_string_panics_cex :
    parseAddrPort_module [] = .panicked
    ∧ parseAddrPort_part0 [] = .panicked
    ∧ parseAddrPort_module (gs "42") = .panicked
    ∧ registerMultiaddrURI_module okWorld true (gs "multiaddr:") []
        = (.panicked, false) := by
  decide

/-- Claim C9, amended: for every input string that contains at least one
colon, the address-parsing portion of both versions returns a result or an
error and never panics; colon-free inputs either fail port parsing with an
error or (when the whole string parses as an integer, or is empty) panic at
the slice. -/
theorem c9_no_panic_with_colon_amended (addr : GoStr) (h : ':' ∈ addr) :
    parseAddrPort_module addr ≠ .panicked
    ∧ parseAddrPort_part0 addr ≠ .panicked := by
  obtain ⟨i, hi⟩ := lastColonAux_isSome_of_mem addr h
  have hlt : i < addr.length := lastColonAux_lt_length addr i hi
  have hg : goLastIndexColon addr = (i : Int) := by
    unfold goLastIndexColon
    rw [hi]
  have hslice : goSliceTo addr (goLastIndexColon addr) = some (addr.take i) := by
    rw [hg]
    unfold goSliceTo
    rw [if_pos]
    · simp
    · exact ⟨Int.natCast_nonneg i, by exact_mod_cast hlt.le⟩
  have hp : parseAddrPort_part0 addr ≠ .panicked := by
    unfold parseAddrPort_part0
    cases hpo : portOf addr with
    | error e => simp
    | ok port =>
      rw [hslice]
      simp
  refine ⟨?_, hp⟩
  rw [parse_module_via_part0]
  cases hpp : parseAddrPort_part0 addr with
  | ok a =>
    obtain ⟨s, p⟩ := a
    simp
  | error e => simp
  | panicked => exact absurd hpp hp

/-- Witness for the amended C9 theorem at the concrete input `":"`. -/
theorem c9_no_panic_with_colon_amended_witness :
    parseAddrPort_module (gs ":") ≠ .panicked
    ∧ parseAddrPort_part0 (gs ":") ≠ .panicked :=
  c9_no_panic_with_colon_amended (gs ":") (by decide)

/-- Claim C2, counterexample: `"-5"` after the last colon parses fine
(`strconv.Atoi` accepts signed integers), so the port is the negative integer
-5 and the registration does not fail with a MalformedPort error -- in an
all-successful world the part_000 registration returns a listener. -/
theorem c2_negative_port_accepted_cex :
    parseAddrPort_part0 (gs "ip4/1:-5") = .ok (gs "ip4/1", some (-5))
    ∧ (registerMultiaddrURI_part0 okWorld true (gs "multiaddr")
        (gs "ip4/1:-5")).1 = .ok ⟨0⟩ := by
  decide

/-- Claim C2, amended: when the last colon is not the final character, the
substring after it must parse under `strconv.Atoi` as a signed decimal
integer in the 64-bit range (negative values are accepted); only when Atoi
fails does the registration call fail with a MalformedPort error, before any
host or listener is constructed.  When Atoi succeeds, the (possibly negative)
value is taken as the port. -/
theorem c2_malformed_port_amended (w : World) (addr : GoStr) (e : AtoiErr)
    (v : Int) :
    ((goLastIndexColon addr ≠ (addr.length : Int) - 1 →
      goAtoi (addr.drop (goLastIndexColon addr + 1).toNat) = .error e →
      registerMultiaddrURI_module w true (gs "multiaddr:") addr
          = (.error (.malformedPort e), false)
       ∧ registerMultiaddrURI_part0 w true (gs "multiaddr") addr
          = (.error (.malformedPort e), false))
    ∧ (∀ i : Nat, lastColonAux addr = some i →
        (i : Int) ≠ (addr.length : Int) - 1 →
        goAtoi (addr.drop (i + 1)) = .ok v →
        parseAddrPort_part0 addr = .ok (addr.take i, some v))) := by
  constructor
  · intro hcond hatoi
    have hport : portOf addr = .error e := by
      unfold portOf
      rw [if_pos hcond, hatoi]
    have hm : parseAddrPort_module addr = .error (.malformedPort e) := by
      unfold parseAddrPort_module
      rw [hport]
    have hp : parseAddrPort_part0 addr = .error (.malformedPort e) := by
      unfold parseAddrPort_part0
      rw [hport]
    constructor
    · simp [registerMultiaddrURI_module, hm]
    · simp [registerMultiaddrURI_part0, hp]
  · intro i hi hne hv
    have hg : goLastIndexColon addr = (i : Int) := by
      unfold goLastIndexColon
      rw [hi]
    have hlt : i < addr.length := lastColonAux_lt_length addr i hi
    have htn : ((i : Int) + 1).toNat = i + 1 := by omega
    have hport : portOf addr = .ok (some v) := by
      unfold portOf
      rw [hg, if_pos hne, htn, hv]
    have hslice : goSliceTo addr (goLastIndexColon addr)
        = some (addr.take i) := by
      rw [hg]
      unfold goSliceTo
      rw [if_pos]
      · simp
      · exact ⟨Int.natCast_nonneg i, by exact_mod_cast hlt.le⟩
    unfold parseAddrPort_part0
    rw [hport, hslice]

/-- Witness for the amended C2 theorem: `"x:y"` fails with MalformedPort in
both versions. -/
theorem c2_malformed_port_amended_witness :
    registerMultiaddrURI_module okWorld true (gs "multiaddr:") (gs "x:y")
      = (.error (.malformedPort .invalid), false)
    ∧ registerMultiaddrURI_part0 okWorld true (gs "multiaddr") (gs "x:y")
      = (.error (.malformedPort .invalid), false) :=
  (c2_malformed_port_amended okWorld (gs "x:y") .invalid 0).1
    (by decide) (by decide)

/-- Claim C8: a registration call with any network token other than the one
the version registered rejects the call with an error before anything is
constructed -- module.go accepts only `"multiaddr:"` and part_000 only
`"multiaddr"` (the recorded host flag stays false, so no host or listener
exists). -/
theorem c8_reject_other_network (w : World) (c : Bool) (network addr : GoStr) :
    (network ≠ gs "multiaddr:" →
      ∃ e, registerMultiaddrURI_module w c network addr = (.error e, false))
    ∧ (network ≠ gs "multiaddr" →
      ∃ e, registerMultiaddrURI_part0 w c network addr = (.error e, false)) := by
  constructor
  · intro hn
    cases c with
    | false => exact ⟨.notCaddyContext, by simp [registerMultiaddrURI_module]⟩
    | true => exact ⟨.wrongNetwork, by simp [registerMultiaddrURI_module, hn]⟩
  · intro hn
    cases c with
    | false => exact ⟨.notCaddyContext, by simp [registerMultiaddrURI_part0]⟩
    | true => exact ⟨.wrongNetwork, by simp [registerMultiaddrURI_part0, hn]⟩

/-- Witness for C8 at the concrete token `"tcp"`. -/
theorem c8_reject_other_network_witness :
    (∃ e, registerMultiaddrURI_module okWorld true (gs "tcp") (gs "x:1")
        = (.error e, false))
    ∧ (∃ e, registerMultiaddrURI_part0 okWorld true (gs "tcp") (gs "x:1")
        = (.error e, false)) :=
  ⟨(c8_reject_other_network okWorld true (gs "tcp") (gs "x:1")).1 (by decide),
   (c8_reject_other_network okWorld true (gs "tcp") (gs "x:1")).2 (by decide)⟩

/-- Claim C3: with a key file configured, when `pem.Decode` finds no PEM block
the registration fails with the envelope-format error, and when the block's
declared type is not `"PRIVATE KEY"` it fails with the unexpected-key-type
error; in both cases the recorded host flag is false -- the function returns
before `libp2p.New` is reached, so no host side effects occur. -/
theorem c3_identity_failures_no_host (w : World) (addr maStr : GoStr)
    (port : Option Int) (ma : Multiaddr) (app : App) (contents : List Nat)
    (hparse : parseAddrPort_module addr = .ok (maStr, port))
    (hma : w.newMultiaddr maStr = .ok ma)
    (happ : w.appResult = .ok app)
    (hpk : app.PrivateKey ≠ [])
    (hread : w.readFile app.PrivateKey = .ok contents) :
    (w.pemDecode contents = none →
      registerMultiaddrURI_module w true (gs "multiaddr:") addr
        = (.error .envelopeFormat, false))
    ∧ (∀ block, w.pemDecode contents = some block →
        block.blockType ≠ gs "PRIVATE KEY" →
        registerMultiaddrURI_module w true (gs "multiaddr:") addr
          = (.error (.unexpectedKeyType block.blockType), false)) := by
  constructor
  · intro hnone
    simp [registerMultiaddrURI_module, loadIdentity, hparse, hma, happ, hpk,
      hread, hnone]
  · intro block hsome htype
    simp [registerMultiaddrURI_module, loadIdentity, hparse, hma, happ, hpk,
      hread, hsome, htype]

/-- Witness for C3: both failure shapes at the concrete input `"x:1"`. -/
theorem c3_identity_failures_no_host_witness :
    registerMultiaddrURI_module noPemWorld true (gs "multiaddr:") (gs "x:1")
      = (.error .envelopeFormat, false)
    ∧ registerMultiaddrURI_module badTypeWorld true (gs "multiaddr:") (gs "x:1")
      = (.error (.unexpectedKeyType (gs "CERTIFICATE")), false) :=
  ⟨(c3_identity_failures_no_host noPemWorld (gs "x:1") (gs "/x") (some 1)
      ⟨0⟩ ⟨gs "key.pem", false⟩ [1, 2, 3] (by decide) (by decide) (by decide)
      (by decide) (by decide)).1 (by decide),
   (c3_identity_failures_no_host badTypeWorld (gs "x:1") (gs "/x") (some 1)
      ⟨0⟩ ⟨gs "key.pem", false⟩ [1, 2, 3] (by decide) (by decide) (by decide)
      (by decide) (by decide)).2 ⟨gs "CERTIFICATE", [2]⟩ (by decide)
      (by decide)⟩

/-- Claim C4: with `AdvertiseAmino = false` the assembled options contain no
routing option; with `AdvertiseAmino = true` they contain the client-mode DHT
routing option; a failing host constructor fails the whole registration (the
error propagates, there is no fallback build without routing); and the
routing closure propagates a `dht.New` failure unchanged. -/
theorem c4_routing_flag (w : World) (addr maStr : GoStr) (port : Option Int)
    (ma : Multiaddr) (app : App) (sk : Option PrivKey)
    (hparse : parseAddrPort_module addr = .ok (maStr, port))
    (hma : w.newMultiaddr maStr = .ok ma)
    (happ : w.appResult = .ok app)
    (hkey : loadIdentity w app.PrivateKey = .ok sk) :
    (app.AdvertiseAmino = false →
      ∀ o ∈ hostOpts ma sk app.AdvertiseAmino, isRoutingOpt o = false)
    ∧ (app.AdvertiseAmino = true →
        HostOpt.routing RoutingMode.client ∈ hostOpts ma sk app.AdvertiseAmino)
    ∧ (∀ e, w.newHost (hostOpts ma sk app.AdvertiseAmino) = .error e →
        registerMultiaddrURI_module w true (gs "multiaddr:") addr
          = (.error (.hostConstruction e), true))
    ∧ (∀ d h e, d h = .error e → routingCallback d h = .error e) := by
  refine ⟨?_, ?_, ?_, ?_⟩
  · intro hf o ho
    rw [hf] at ho
    cases sk with
    | none =>
      simp [hostOpts] at ho
      rcases ho with h | h | h <;> subst h <;> rfl
    | some k =>
      simp [hostOpts] at ho
      rcases ho with h | h | h | h <;> subst h <;> rfl
  · intro ht
    rw [ht]
    cases sk <;> simp [hostOpts]
  · intro e he
    simp [registerMultiaddrURI_module, hparse, hma, happ, hkey, he]
  · intro d h e hde
    unfold routingCallback
    rw [hde]

/-- Witness for C4: with routing advertised and a failing host constructor
the registration fails with that very error after reaching the host step. -/
theorem c4_routing_flag_witness :
    registerMultiaddrURI_module aminoFailWorld true (gs "multiaddr:") (gs "x:1")
      = (.error (.hostConstruction ⟨9⟩), true) :=
  (c4_routing_flag aminoFailWorld (gs "x:1") (gs "/x") (some 1) ⟨0⟩
      ⟨[], true⟩ none (by decide) (by decide) (by decide)
      (by decide)).2.2.1 ⟨9⟩ (by decide)

/-- Claim C7: a value-typed ed25519 key decoded from PKCS8 is converted to
the reference-typed form before the libp2p key conversion (the identity
loader hands `ed25519Ref stdKey` to `crypto.KeyPairFromStdKey`); value-typed
ed25519 keys gain a reference, every other decoded key passes through
unchanged. -/
theorem c7_ed25519_pointer (w : World) (path : GoStr) (contents : List Nat)
    (block : PemBlock) (k : StdKey)
    (hp : path ≠ [])
    (hread : w.readFile path = .ok contents)
    (hdec : w.pemDecode contents = some block)
    (htype : block.blockType = gs "PRIVATE KEY")
    (hkey : w.parsePKCS8 block.bytes = .ok k) :
    loadIdentity w path
      = (match w.keyPairFromStdKey (ed25519Ref k) with
          | .error e => .error (.keyConversion e)
          | .ok sk => .ok (some sk))
    ∧ (∀ m, ed25519Ref (StdKey.ed25519 false m) = StdKey.ed25519 true m)
    ∧ (∀ k2, isEd25519Value k2 = false → ed25519Ref k2 = k2) := by
  refine ⟨?_, fun m => rfl, ?_⟩
  · simp [loadIdentity, hp, hread, hdec, htype, hkey]
  · intro k2 hk2
    cases k2 with
    | ed25519 referenced m =>
      cases referenced with
      | false => simp [isEd25519Value] at hk2
      | true => rfl
    | rsa m => rfl
    | ecdsa m => rfl
    | ecdh m => rfl

/-- Witness for C7: the identity loader of a world whose PKCS8 step yields a
value-typed ed25519 key succeeds through the pointer conversion. -/
theorem c7_ed25519_pointer_witness :
    loadIdentity keyWorld (gs "key.pem") = .ok (some ⟨5⟩) :=
  ((c7_ed25519_pointer keyWorld (gs "key.pem") [1, 2, 3]
      ⟨gs "PRIVATE KEY", [1]⟩ (.ed25519 false 7) (by decide) (by decide)
      (by decide) (by decide) (by decide)).1).trans (by decide)

/-- Claim C10, counterexample: the two versions are not equivalent -- on the
same context, network token `"multiaddr"` and address `"ip4/1:1"`, in the
same all-successful world, module.go rejects the token while part_000 returns
a listener. -/
theorem c10_versions_differ_cex :
    registerMultiaddrURI_module okWorld true (gs "multiaddr") (gs "ip4/1:1")
      ≠ registerMultiaddrURI_part0 okWorld true (gs "multiaddr") (gs "ip4/1:1") := by
  decide

/-- Claim C10, amended: the two versions share the port-stripping step (the
module.go parse is the part_000 parse with a slash prepended to the stripped
address, agreeing exactly on errors and panics), but they are not equivalent:
each accepts only its own network token (`"multiaddr:"` vs `"multiaddr"`),
module.go hands `"/" + addr` to the multiaddr parser while part_000 hands
`addr`, and module.go passes the IgnoreEOF option to `gostream.Listen` while
part_000 does not (visible as the listener tags 1 vs 0 of `okWorld`). -/
theorem c10_versions_relation_amended (addr : GoStr) :
    (∀ s p, parseAddrPort_part0 addr = .ok (s, p) →
      parseAddrPort_module addr = .ok ('/' :: s, p))
    ∧ (parseAddrPort_part0 addr = .panicked ↔ parseAddrPort_module addr = .panicked)
    ∧ (∀ e, parseAddrPort_part0 addr = .error e ↔ parseAddrPort_module addr = .error e)
    ∧ (∀ w : World, registerMultiaddrURI_module w true (gs "multiaddr") addr
        = (.error .wrongNetwork, false))
    ∧ (∀ w : World, registerMultiaddrURI_part0 w true (gs "multiaddr:") addr
        = (.error .wrongNetwork, false))
    ∧ (∀ s p, parseAddrPort_module addr = .ok (s, p) →
        registerMultiaddrURI_module okWorld true (gs "multiaddr:") addr
          = (.ok ⟨1⟩, true))
    ∧ (∀ s p, parseAddrPort_part0 addr = .ok (s, p) →
        registerMultiaddrURI_part0 okWorld true (gs "multiaddr") addr
          = (.ok ⟨0⟩, true)) := by
  refine ⟨?_, ?_, ?_, ?_, ?_, ?_, ?_⟩
  · intro s p h
    rw [parse_module_via_part0, h]
  · rw [parse_module_via_part0]
    cases hpp : parseAddrPort_part0 addr with
    | ok a => obtain ⟨s, p⟩ := a; simp
    | error e => simp
    | panicked => simp
  · intro e
    rw [parse_module_via_part0]
    cases hpp : parseAddrPort_part0 addr with
    | ok a => obtain ⟨s, p⟩ := a; simp
    | error e2 => simp
    | panicked => simp
  · intro w
    rw [registerMultiaddrURI_module, if_neg (by decide), if_pos (by decide)]
  · intro w
    rw [registerMultiaddrURI_part0, if_neg (by decide), if_pos (by decide)]
  · intro s p h
    simp [registerMultiaddrURI_module, h, okWorld, loadIdentity, hostOpts]
  · intro s p h
    simp [registerMultiaddrURI_part0, h, okWorld, loadIdentity, hostOpts]

/-- Witness for the amended C10 theorem at the concrete address `"ip4/1:1"`:
the module.go listener carries the IgnoreEOF flag, the part_000 one does
not. -/
theorem c10_versions_relation_amended_witness :
    registerMultiaddrURI_module okWorld true (gs "multiaddr:") (gs "ip4/1:1")
      = (.ok ⟨1⟩, true)
    ∧ registerMultiaddrURI_part0 okWorld true (gs "multiaddr") (gs "ip4/1:1")
      = (.ok ⟨0⟩, true) :=
  ⟨(c10_versions_relation_amended (gs "ip4/1:1")).2.2.2.2.2.1
      (gs "/ip4/1") (some 1) (by decide),
   (c10_versions_relation_amended (gs "ip4/1:1")).2.2.2.2.2.2
      (gs "ip4/1") (some 1) (by decide)⟩
